import Mathlib

/-!
Verification of the job-status polling loops in the two notebooks of this
repository:

* `autopilot/sagemaker_autopilot_abalone_parquet_input.ipynb` — the Python
  AutoML watcher:
  ```
  response = client.describe_auto_ml_job(AutoMLJobName=job_name)
  status = response["AutoMLJobStatus"]
  secondary_status = response["AutoMLJobSecondaryStatus"]
  print(f"{status} - {secondary_status}")
  while status != "Completed" and secondary_status != "Failed":
      time.sleep(60)
      response = client.describe_auto_ml_job(AutoMLJobName=job_name)
      status = response["AutoMLJobStatus"]
      secondary_status = response["AutoMLJobSecondaryStatus"]
      print(f"{status} - {secondary_status}")
  ```

* `r_examples/r_xgboost_hpo_batch_transform/r_xgboost_hpo_batch_transform.ipynb`
  — the R hyperparameter-tuning watcher:
  ```
  status <- sm$describe_hyper_parameter_tuning_job(...)
  message(cat('Hyperparameter Tuning Job Name: ', job_name,'\n'))
  while (status$HyperParameterTuningJobStatus != "Completed") {
      message(cat('Hyperparameter Tuning Job Status: ', status$..., '\n'))
      message(cat('Succeeded Models:', ..., '\n'))
      Sys.sleep(60)
      status <- sm$describe_hyper_parameter_tuning_job(...)
  }
  ```

The external `describe_*` capability is modelled as a function from the call
index (0-based: call `i` is the `(i+1)`-th describe call of the run) to
`Except ε snapshot`: `.ok s` is a normal API answer, `.error e` is a raised
client error (network/auth/service failure), which in the source — there is
no try/except around either loop — propagates and aborts the loop.

The unbounded `while` loops are embedded with explicit fuel bounding the
number of loop-body iterations; running out of fuel yields the `running`
outcome, which represents a run that is still polling at that point.  Each
outcome carries the number of describe calls performed, the number of
`sleep(60)` calls performed, and the list of snapshots printed, in order.
-/

/-- Snapshot of an AutoML job as read by the Python watcher: the two fields
of the `describe_auto_ml_job` response that the loop consumes. -/
structure AutoMLSnapshot where
  AutoMLJobStatus : String
  AutoMLJobSecondaryStatus : String
deriving DecidableEq

/-- The `ObjectiveStatusCounters` the R watcher prints each iteration. -/
structure StatusCounters where
  Succeeded : Nat
  Pending : Nat
  Failed : Nat
deriving DecidableEq

/-- Snapshot of a hyperparameter-tuning job as read by the R watcher: the
fields of the `describe_hyper_parameter_tuning_job` response it consumes. -/
structure TuningSnapshot where
  HyperParameterTuningJobStatus : String
  ObjectiveStatusCounters : StatusCounters
deriving DecidableEq

/-- Outcome of running a watcher with a given amount of fuel.
`done` — the loop condition became false and the last snapshot is returned;
`failed` — a describe call raised and the error propagated out of the loop;
`running` — the fuel was exhausted with the loop still iterating.
Every outcome records the describe calls made (`queries`), the
`sleep(60)` calls made (`sleeps`) and the snapshots printed (`log`). -/
inductive Outcome (σ ε : Type) where
  | done (snapshot : σ) (queries : Nat) (sleeps : Nat) (log : List σ)
  | failed (err : ε) (queries : Nat) (sleeps : Nat) (log : List σ)
  | running (snapshot : σ) (queries : Nat) (sleeps : Nat) (log : List σ)
deriving DecidableEq

/-- Number of describe calls performed in an outcome. -/
def Outcome.queries {σ ε : Type} : Outcome σ ε → Nat
  | .done _ q _ _ => q
  | .failed _ q _ _ => q
  | .running _ q _ _ => q

/-- Number of `sleep(60)` calls performed in an outcome. -/
def Outcome.sleeps {σ ε : Type} : Outcome σ ε → Nat
  | .done _ _ z _ => z
  | .failed _ _ z _ => z
  | .running _ _ z _ => z

/-- The fixed polling interval of both loops: `time.sleep(60)` in the Python
notebook, `Sys.sleep(60)` in the R notebook. -/
def pollIntervalSeconds : Nat := 60

/-- The Python loop's guard, exactly as written in the source:
`while status != "Completed" and secondary_status != "Failed"`. -/
def autoMLLoopGuard (s : AutoMLSnapshot) : Bool :=
  s.AutoMLJobStatus ≠ "Completed" && s.AutoMLJobSecondaryStatus ≠ "Failed"

/-- The R loop's guard, exactly as written in the source:
`while (status$HyperParameterTuningJobStatus != "Completed")`. -/
def tuningLoopGuard (s : TuningSnapshot) : Bool :=
  s.HyperParameterTuningJobStatus ≠ "Completed"

/-- The Python watcher's `while` loop.  State: `s` is the snapshot most
recently read, `q` the index of the next describe call, `z` the sleeps so
far, `log` the snapshots printed so far (reversed).  One iteration is
`time.sleep(60)`, then a describe call, then a print of the new snapshot. -/
def autoMLLoop {ε : Type} (query : Nat → Except ε AutoMLSnapshot) :
    Nat → AutoMLSnapshot → Nat → Nat → List AutoMLSnapshot →
    Outcome AutoMLSnapshot ε
  | fuel, s, q, z, log =>
    if autoMLLoopGuard s then
      match fuel with
      | 0 => Outcome.running s q z log.reverse
      | fuel' + 1 =>
        match query q with
        | Except.error e => Outcome.failed e (q + 1) (z + 1) log.reverse
        | Except.ok s' => autoMLLoop query fuel' s' (q + 1) (z + 1) (s' :: log)
    else
      Outcome.done s q z log.reverse

/-- The Python watcher: one initial describe call and print, then the loop. -/
def autoMLRun {ε : Type} (query : Nat → Except ε AutoMLSnapshot) (fuel : Nat) :
    Outcome AutoMLSnapshot ε :=
  match query 0 with
  | Except.error e => Outcome.failed e 1 0 []
  | Except.ok s => autoMLLoop query fuel s 1 0 [s]

/-- The R watcher's `while` loop.  One iteration is a print of the current
snapshot's status and counters, `Sys.sleep(60)`, then a describe call. -/
def tuningLoop {ε : Type} (query : Nat → Except ε TuningSnapshot) :
    Nat → TuningSnapshot → Nat → Nat → List TuningSnapshot →
    Outcome TuningSnapshot ε
  | fuel, s, q, z, log =>
    if tuningLoopGuard s then
      match fuel with
      | 0 => Outcome.running s q z log.reverse
      | fuel' + 1 =>
        match query q with
        | Except.error e => Outcome.failed e (q + 1) (z + 1) (s :: log).reverse
        | Except.ok s' => tuningLoop query fuel' s' (q + 1) (z + 1) (s :: log)
    else
      Outcome.done s q z log.reverse

/-- The R watcher: one initial describe call (the printed line before the
loop shows the job name, not a snapshot), then the loop. -/
def tuningRun {ε : Type} (query : Nat → Except ε TuningSnapshot) (fuel : Nat) :
    Outcome TuningSnapshot ε :=
  match query 0 with
  | Except.error e => Outcome.failed e 1 0 []
  | Except.ok s => tuningLoop query fuel s 1 0 []

/-- Modelled from the spec: the terminal primary status values of the data
model and glossary — `Completed`, `Failed`, `Stopped`.  Kept separate from
the loop guards above so the two can be compared. -/
def isTerminalStatus (st : String) : Bool :=
  st = "Completed" || st = "Failed" || st = "Stopped"

/-!
General run lemmas.  Throughout, `t : Nat → σ` names the snapshots the
describe capability answers with: `query i = .ok (t i)` for the calls that
succeed.  In the loop-level lemmas the indexing is relative: `t 0` is the
snapshot currently held and `query (q + i) = .ok (t (i + 1))`.
-/

/-- If, starting from `t 0`, the next `n` describe calls succeed, the
guard holds for `t 0 … t (n-1)` and fails at `t n`, the R loop stops at
`t n` after those `n` calls and `n` sleeps, having printed `t 0 … t (n-1)`. -/
lemma tuningLoop_done_spec {ε : Type} (query : Nat → Except ε TuningSnapshot) :
    ∀ (n : Nat) (t : Nat → TuningSnapshot) (fuel q z : Nat)
      (log : List TuningSnapshot),
      n ≤ fuel →
      (∀ i, i < n → query (q + i) = Except.ok (t (i + 1))) →
      (∀ i, i < n → tuningLoopGuard (t i) = true) →
      tuningLoopGuard (t n) = false →
      tuningLoop query fuel (t 0) q z log =
        Outcome.done (t n) (q + n) (z + n)
          (log.reverse ++ (List.range n).map t) := by
  intro n
  induction n with
  | zero =>
      intro t fuel q z log _ _ _ hstop
      rw [tuningLoop.eq_def]
      simp [hstop]
  | succ n ih =>
      intro t fuel q z log hfuel hq hguard hstop
      cases fuel with
      | zero => omega
      | succ fuel =>
        have h0 : tuningLoopGuard (t 0) = true := hguard 0 (Nat.succ_pos n)
        have hq0 : query q = Except.ok (t 1) := by
          have := hq 0 (Nat.succ_pos n)
          simpa using this
        rw [tuningLoop.eq_def]
        simp only [h0, if_true, hq0]
        have step := ih (fun i => t (i + 1)) fuel (q + 1) (z + 1) (t 0 :: log)
          (by omega)
          (by
            intro i hi
            have harg : q + 1 + i = q + (i + 1) := by omega
            rw [harg]
            exact hq (i + 1) (by omega))
          (by
            intro i hi
            exact hguard (i + 1) (by omega))
          hstop
        rw [step]
        congr 1
        · omega
        · omega
        · simp [List.range_succ_eq_map, List.map_map, Function.comp_def,
            Nat.succ_eq_add_one]

/-- Run-level version for the R watcher: if describe calls `0 … n` succeed
with snapshots `t 0 … t n`, the first `n` are not `Completed` and `t n` is,
then with fuel at least `n` the run finishes at `t n` after exactly `n + 1`
describe calls and `n` sleeps, having printed exactly `t 0 … t (n-1)`. -/
lemma tuningRun_done_spec {ε : Type} (query : Nat → Except ε TuningSnapshot)
    (t : Nat → TuningSnapshot) (n fuel : Nat)
    (hfuel : n ≤ fuel)
    (hq : ∀ i, i ≤ n → query i = Except.ok (t i))
    (hguard : ∀ i, i < n → tuningLoopGuard (t i) = true)
    (hstop : tuningLoopGuard (t n) = false) :
    tuningRun query fuel =
      Outcome.done (t n) (n + 1) n ((List.range n).map t) := by
  rw [tuningRun, hq 0 (Nat.zero_le n)]
  show tuningLoop query fuel (t 0) 1 0 [] =
    Outcome.done (t n) (n + 1) n ((List.range n).map t)
  have := tuningLoop_done_spec query n t fuel 1 0 [] hfuel
    (by
      intro i hi
      have harg : 1 + i = i + 1 := by omega
      rw [harg]
      exact hq (i + 1) (by omega))
    hguard hstop
  rw [this]
  congr 1
  · omega
  · simp

/-- If, starting from `t 0`, the next `n` describe calls succeed, the
guard holds for `t 0 … t (n-1)` and fails at `t n`, the Python loop stops
at `t n` after those `n` calls and `n` sleeps, printing `t 1 … t n`. -/
lemma autoMLLoop_done_spec {ε : Type} (query : Nat → Except ε AutoMLSnapshot) :
    ∀ (n : Nat) (t : Nat → AutoMLSnapshot) (fuel q z : Nat)
      (log : List AutoMLSnapshot),
      n ≤ fuel →
      (∀ i, i < n → query (q + i) = Except.ok (t (i + 1))) →
      (∀ i, i < n → autoMLLoopGuard (t i) = true) →
      autoMLLoopGuard (t n) = false →
      autoMLLoop query fuel (t 0) q z log =
        Outcome.done (t n) (q + n) (z + n)
          (log.reverse ++ (List.range n).map (fun i => t (i + 1))) := by
  intro n
  induction n with
  | zero =>
      intro t fuel q z log _ _ _ hstop
      rw [autoMLLoop.eq_def]
      simp [hstop]
  | succ n ih =>
      intro t fuel q z log hfuel hq hguard hstop
      cases fuel with
      | zero => omega
      | succ fuel =>
        have h0 : autoMLLoopGuard (t 0) = true := hguard 0 (Nat.succ_pos n)
        have hq0 : query q = Except.ok (t 1) := by
          have := hq 0 (Nat.succ_pos n)
          simpa using this
        rw [autoMLLoop.eq_def]
        simp only [h0, if_true, hq0]
        have step := ih (fun i => t (i + 1)) fuel (q + 1) (z + 1) (t 1 :: log)
          (by omega)
          (by
            intro i hi
            have harg : q + 1 + i = q + (i + 1) := by omega
            rw [harg]
            exact hq (i + 1) (by omega))
          (by
            intro i hi
            exact hguard (i + 1) (by omega))
          hstop
        rw [step]
        congr 1
        · omega
        · omega
        · simp [List.range_succ_eq_map, List.map_map, Function.comp_def,
            Nat.succ_eq_add_one]

/-- Run-level version for the Python watcher: reaching the first snapshot
failing the guard at call `n` means exactly `n + 1` describe calls, `n`
sleeps, and all of `t 0 … t n` printed. -/
lemma autoMLRun_done_spec {ε : Type} (query : Nat → Except ε AutoMLSnapshot)
    (t : Nat → AutoMLSnapshot) (n fuel : Nat)
    (hfuel : n ≤ fuel)
    (hq : ∀ i, i ≤ n → query i = Except.ok (t i))
    (hguard : ∀ i, i < n → autoMLLoopGuard (t i) = true)
    (hstop : autoMLLoopGuard (t n) = false) :
    autoMLRun query fuel =
      Outcome.done (t n) (n + 1) n ((List.range (n + 1)).map t) := by
  rw [autoMLRun, hq 0 (Nat.zero_le n)]
  show autoMLLoop query fuel (t 0) 1 0 [t 0] =
    Outcome.done (t n) (n + 1) n ((List.range (n + 1)).map t)
  have := autoMLLoop_done_spec query n t fuel 1 0 [t 0] hfuel
    (by
      intro i hi
      have harg : 1 + i = i + 1 := by omega
      rw [harg]
      exact hq (i + 1) (by omega))
    hguard hstop
  rw [this]
  congr 1
  · omega
  · omega
  · simp [List.range_succ_eq_map, List.map_map, Function.comp_def,
      Nat.succ_eq_add_one]

/-- If the `(j+1)`-th describe call issued from the current loop state
raises `e` while every earlier answer keeps the guard true, the R loop
propagates `e` after that call, having also slept and printed once more. -/
lemma tuningLoop_error_spec {ε : Type} (query : Nat → Except ε TuningSnapshot)
    (e : ε) :
    ∀ (j : Nat) (t : Nat → TuningSnapshot) (fuel q z : Nat)
      (log : List TuningSnapshot),
      j < fuel →
      (∀ i, i < j → query (q + i) = Except.ok (t (i + 1))) →
      (∀ i, i ≤ j → tuningLoopGuard (t i) = true) →
      query (q + j) = Except.error e →
      tuningLoop query fuel (t 0) q z log =
        Outcome.failed e (q + j + 1) (z + j + 1)
          (log.reverse ++ (List.range (j + 1)).map t) := by
  intro j
  induction j with
  | zero =>
      intro t fuel q z log hfuel _ hguard herr
      cases fuel with
      | zero => omega
      | succ fuel =>
        have h0 : tuningLoopGuard (t 0) = true := hguard 0 (Nat.le_refl 0)
        have herr0 : query q = Except.error e := by simpa using herr
        rw [tuningLoop.eq_def]
        simp [h0, herr0]
        rfl
  | succ j ih =>
      intro t fuel q z log hfuel hq hguard herr
      cases fuel with
      | zero => omega
      | succ fuel =>
        have h0 : tuningLoopGuard (t 0) = true := hguard 0 (Nat.zero_le _)
        have hq0 : query q = Except.ok (t 1) := by
          have := hq 0 (Nat.succ_pos j)
          simpa using this
        rw [tuningLoop.eq_def]
        simp only [h0, if_true, hq0]
        have step := ih (fun i => t (i + 1)) fuel (q + 1) (z + 1) (t 0 :: log)
          (by omega)
          (by
            intro i hi
            have harg : q + 1 + i = q + (i + 1) := by omega
            rw [harg]
            exact hq (i + 1) (by omega))
          (by
            intro i hi
            exact hguard (i + 1) (by omega))
          (by
            have harg : q + 1 + j = q + (j + 1) := by omega
            rw [harg]
            exact herr)
        rw [step]
        congr 1
        · omega
        · omega
        · simp [List.range_succ_eq_map, List.map_map, Function.comp_def,
            Nat.succ_eq_add_one]

/-- Same statement for the Python loop; here nothing new is printed in the
iteration whose describe call raises. -/
lemma autoMLLoop_error_spec {ε : Type} (query : Nat → Except ε AutoMLSnapshot)
    (e : ε) :
    ∀ (j : Nat) (t : Nat → AutoMLSnapshot) (fuel q z : Nat)
      (log : List AutoMLSnapshot),
      j < fuel →
      (∀ i, i < j → query (q + i) = Except.ok (t (i + 1))) →
      (∀ i, i ≤ j → autoMLLoopGuard (t i) = true) →
      query (q + j) = Except.error e →
      autoMLLoop query fuel (t 0) q z log =
        Outcome.failed e (q + j + 1) (z + j + 1)
          (log.reverse ++ (List.range j).map (fun i => t (i + 1))) := by
  intro j
  induction j with
  | zero =>
      intro t fuel q z log hfuel _ hguard herr
      cases fuel with
      | zero => omega
      | succ fuel =>
        have h0 : autoMLLoopGuard (t 0) = true := hguard 0 (Nat.le_refl 0)
        have herr0 : query q = Except.error e := by simpa using herr
        rw [autoMLLoop.eq_def]
        simp [h0, herr0]
  | succ j ih =>
      intro t fuel q z log hfuel hq hguard herr
      cases fuel with
      | zero => omega
      | succ fuel =>
        have h0 : autoMLLoopGuard (t 0) = true := hguard 0 (Nat.zero_le _)
        have hq0 : query q = Except.ok (t 1) := by
          have := hq 0 (Nat.succ_pos j)
          simpa using this
        rw [autoMLLoop.eq_def]
        simp only [h0, if_true, hq0]
        have step := ih (fun i => t (i + 1)) fuel (q + 1) (z + 1) (t 1 :: log)
          (by omega)
          (by
            intro i hi
            have harg : q + 1 + i = q + (i + 1) := by omega
            rw [harg]
            exact hq (i + 1) (by omega))
          (by
            intro i hi
            exact hguard (i + 1) (by omega))
          (by
            have harg : q + 1 + j = q + (j + 1) := by omega
            rw [harg]
            exact herr)
        rw [step]
        congr 1
        · omega
        · omega
        · simp [List.range_succ_eq_map, List.map_map, Function.comp_def,
            Nat.succ_eq_add_one]

/-- Run-level error propagation for the R watcher: if describe call `n`
raises `e` and all earlier calls answered snapshots keeping the guard true,
the run propagates `e` after exactly `n + 1` calls and `n` sleeps. -/
lemma tuningRun_error_spec {ε : Type} (query : Nat → Except ε TuningSnapshot)
    (t : Nat → TuningSnapshot) (e : ε) (n fuel : Nat)
    (hfuel : n ≤ fuel)
    (hq : ∀ i, i < n → query i = Except.ok (t i))
    (hguard : ∀ i, i < n → tuningLoopGuard (t i) = true)
    (herr : query n = Except.error e) :
    tuningRun query fuel =
      Outcome.failed e (n + 1) n ((List.range n).map t) := by
  cases n with
  | zero =>
      rw [tuningRun, herr]
      simp
  | succ n =>
      rw [tuningRun, hq 0 (Nat.succ_pos n)]
      show tuningLoop query fuel (t 0) 1 0 [] = _
      have := tuningLoop_error_spec query e n t fuel 1 0 []
        (by omega)
        (by
          intro i hi
          have harg : 1 + i = i + 1 := by omega
          rw [harg]
          exact hq (i + 1) (by omega))
        (by
          intro i hi
          exact hguard i (by omega))
        (by
          have harg : 1 + n = n + 1 := by omega
          rw [harg]
          exact herr)
      rw [this]
      congr 1
      · omega
      · omega

/-- Run-level error propagation for the Python watcher. -/
lemma autoMLRun_error_spec {ε : Type} (query : Nat → Except ε AutoMLSnapshot)
    (t : Nat → AutoMLSnapshot) (e : ε) (n fuel : Nat)
    (hfuel : n ≤ fuel)
    (hq : ∀ i, i < n → query i = Except.ok (t i))
    (hguard : ∀ i, i < n → autoMLLoopGuard (t i) = true)
    (herr : query n = Except.error e) :
    autoMLRun query fuel =
      Outcome.failed e (n + 1) n ((List.range n).map t) := by
  cases n with
  | zero =>
      rw [autoMLRun, herr]
      simp
  | succ n =>
      rw [autoMLRun, hq 0 (Nat.succ_pos n)]
      show autoMLLoop query fuel (t 0) 1 0 [t 0] = _
      have := autoMLLoop_error_spec query e n t fuel 1 0 [t 0]
        (by omega)
        (by
          intro i hi
          have harg : 1 + i = i + 1 := by omega
          rw [harg]
          exact hq (i + 1) (by omega))
        (by
          intro i hi
          exact hguard i (by omega))
        (by
          have harg : 1 + n = n + 1 := by omega
          rw [harg]
          exact herr)
      rw [this]
      congr 1
      · omega
      · omega
      · simp [List.range_succ_eq_map, List.map_map, Function.comp_def,
          Nat.succ_eq_add_one]

/-- If the guard stays true through the whole fuel budget and every describe
call succeeds, the R loop is still running after the budget. -/
lemma tuningLoop_running_spec {ε : Type}
    (query : Nat → Except ε TuningSnapshot) :
    ∀ (fuel : Nat) (t : Nat → TuningSnapshot) (q z : Nat)
      (log : List TuningSnapshot),
      (∀ i, i < fuel → query (q + i) = Except.ok (t (i + 1))) →
      (∀ i, i ≤ fuel → tuningLoopGuard (t i) = true) →
      tuningLoop query fuel (t 0) q z log =
        Outcome.running (t fuel) (q + fuel) (z + fuel)
          (log.reverse ++ (List.range fuel).map t) := by
  intro fuel
  induction fuel with
  | zero =>
      intro t q z log _ hguard
      rw [tuningLoop.eq_def]
      simp [hguard 0 (Nat.le_refl 0)]
  | succ fuel ih =>
      intro t q z log hq hguard
      have h0 : tuningLoopGuard (t 0) = true := hguard 0 (Nat.zero_le _)
      have hq0 : query q = Except.ok (t 1) := by
        simpa using hq 0 (Nat.succ_pos fuel)
      rw [tuningLoop.eq_def]
      simp only [h0, if_true, hq0]
      have step := ih (fun i => t (i + 1)) (q + 1) (z + 1) (t 0 :: log)
        (by
          intro i hi
          have harg : q + 1 + i = q + (i + 1) := by omega
          rw [harg]
          exact hq (i + 1) (by omega))
        (by
          intro i hi
          exact hguard (i + 1) (by omega))
      rw [step]
      congr 1
      · omega
      · omega
      · simp [List.range_succ_eq_map, List.map_map, Function.comp_def,
          Nat.succ_eq_add_one]

/-- Same statement for the Python loop. -/
lemma autoMLLoop_running_spec {ε : Type}
    (query : Nat → Except ε AutoMLSnapshot) :
    ∀ (fuel : Nat) (t : Nat → AutoMLSnapshot) (q z : Nat)
      (log : List AutoMLSnapshot),
      (∀ i, i < fuel → query (q + i) = Except.ok (t (i + 1))) →
      (∀ i, i ≤ fuel → autoMLLoopGuard (t i) = true) →
      autoMLLoop query fuel (t 0) q z log =
        Outcome.running (t fuel) (q + fuel) (z + fuel)
          (log.reverse ++ (List.range fuel).map (fun i => t (i + 1))) := by
  intro fuel
  induction fuel with
  | zero =>
      intro t q z log _ hguard
      rw [autoMLLoop.eq_def]
      simp [hguard 0 (Nat.le_refl 0)]
  | succ fuel ih =>
      intro t q z log hq hguard
      have h0 : autoMLLoopGuard (t 0) = true := hguard 0 (Nat.zero_le _)
      have hq0 : query q = Except.ok (t 1) := by
        simpa using hq 0 (Nat.succ_pos fuel)
      rw [autoMLLoop.eq_def]
      simp only [h0, if_true, hq0]
      have step := ih (fun i => t (i + 1)) (q + 1) (z + 1) (t 1 :: log)
        (by
          intro i hi
          have harg : q + 1 + i = q + (i + 1) := by omega
          rw [harg]
          exact hq (i + 1) (by omega))
        (by
          intro i hi
          exact hguard (i + 1) (by omega))
      rw [step]
      congr 1
      · omega
      · omega
      · simp [List.range_succ_eq_map, List.map_map, Function.comp_def,
          Nat.succ_eq_add_one]

/-- Run-level: the R watcher is still polling after any fuel budget during
which every answer keeps the guard true. -/
lemma tuningRun_running_spec {ε : Type}
    (query : Nat → Except ε TuningSnapshot) (t : Nat → TuningSnapshot)
    (fuel : Nat)
    (hq : ∀ i, i ≤ fuel → query i = Except.ok (t i))
    (hguard : ∀ i, i ≤ fuel → tuningLoopGuard (t i) = true) :
    tuningRun query fuel =
      Outcome.running (t fuel) (fuel + 1) fuel ((List.range fuel).map t) := by
  rw [tuningRun, hq 0 (Nat.zero_le _)]
  show tuningLoop query fuel (t 0) 1 0 [] = _
  have := tuningLoop_running_spec query fuel t 1 0 []
    (by
      intro i hi
      have harg : 1 + i = i + 1 := by omega
      rw [harg]
      exact hq (i + 1) (by omega))
    hguard
  rw [this]
  congr 1
  · omega
  · omega

/-- Run-level: the Python watcher is still polling after any fuel budget
during which every answer keeps the guard true. -/
lemma autoMLRun_running_spec {ε : Type}
    (query : Nat → Except ε AutoMLSnapshot) (t : Nat → AutoMLSnapshot)
    (fuel : Nat)
    (hq : ∀ i, i ≤ fuel → query i = Except.ok (t i))
    (hguard : ∀ i, i ≤ fuel → autoMLLoopGuard (t i) = true) :
    autoMLRun query fuel =
      Outcome.running (t fuel) (fuel + 1) fuel
        ((List.range (fuel + 1)).map t) := by
  rw [autoMLRun, hq 0 (Nat.zero_le _)]
  show autoMLLoop query fuel (t 0) 1 0 [t 0] = _
  have := autoMLLoop_running_spec query fuel t 1 0 [t 0]
    (by
      intro i hi
      have harg : 1 + i = i + 1 := by omega
      rw [harg]
      exact hq (i + 1) (by omega))
    hguard
  rw [this]
  congr 1
  · omega
  · omega
  · simp [List.range_succ_eq_map, List.map_map, Function.comp_def,
      Nat.succ_eq_add_one]

/-- Loop invariant for the R loop: the difference between describe calls
and sleeps never changes inside the loop. -/
lemma tuningLoop_count {ε : Type} (query : Nat → Except ε TuningSnapshot) :
    ∀ (fuel : Nat) (s : TuningSnapshot) (q z : Nat)
      (log : List TuningSnapshot),
      (tuningLoop query fuel s q z log).queries + z =
        (tuningLoop query fuel s q z log).sleeps + q := by
  intro fuel
  induction fuel with
  | zero =>
      intro s q z log
      rw [tuningLoop.eq_def]
      by_cases hg : tuningLoopGuard s = true <;>
        simp [hg, Outcome.queries, Outcome.sleeps] <;> omega
  | succ fuel ih =>
      intro s q z log
      rw [tuningLoop.eq_def]
      by_cases hg : tuningLoopGuard s = true
      · simp only [hg, if_true]
        cases hq : query q with
        | error e => simp [Outcome.queries, Outcome.sleeps]; omega
        | ok s' =>
            show (tuningLoop query fuel s' (q + 1) (z + 1) (s :: log)).queries
                + z =
              (tuningLoop query fuel s' (q + 1) (z + 1) (s :: log)).sleeps + q
            have := ih s' (q + 1) (z + 1) (s :: log)
            omega
      · simp [hg, Outcome.queries, Outcome.sleeps]
        omega

/-- Loop invariant for the Python loop: the difference between describe
calls and sleeps never changes inside the loop. -/
lemma autoMLLoop_count {ε : Type} (query : Nat → Except ε AutoMLSnapshot) :
    ∀ (fuel : Nat) (s : AutoMLSnapshot) (q z : Nat)
      (log : List AutoMLSnapshot),
      (autoMLLoop query fuel s q z log).queries + z =
        (autoMLLoop query fuel s q z log).sleeps + q := by
  intro fuel
  induction fuel with
  | zero =>
      intro s q z log
      rw [autoMLLoop.eq_def]
      by_cases hg : autoMLLoopGuard s = true <;>
        simp [hg, Outcome.queries, Outcome.sleeps] <;> omega
  | succ fuel ih =>
      intro s q z log
      rw [autoMLLoop.eq_def]
      by_cases hg : autoMLLoopGuard s = true
      · simp only [hg, if_true]
        cases hq : query q with
        | error e => simp [Outcome.queries, Outcome.sleeps]; omega
        | ok s' =>
            show (autoMLLoop query fuel s' (q + 1) (z + 1) (s' :: log)).queries
                + z =
              (autoMLLoop query fuel s' (q + 1) (z + 1) (s' :: log)).sleeps + q
            have := ih s' (q + 1) (z + 1) (s' :: log)
            omega
      · simp [hg, Outcome.queries, Outcome.sleeps]
        omega

/-- The describe-call count of the Python loop never falls below the index
of the next call: once inside the loop, more calls only add to it. -/
lemma autoMLLoop_queries_ge {ε : Type} (query : Nat → Except ε AutoMLSnapshot) :
    ∀ (fuel : Nat) (s : AutoMLSnapshot) (q z : Nat)
      (log : List AutoMLSnapshot),
      q ≤ (autoMLLoop query fuel s q z log).queries := by
  intro fuel
  induction fuel with
  | zero =>
      intro s q z log
      rw [autoMLLoop.eq_def]
      by_cases hg : autoMLLoopGuard s = true <;>
        simp [hg, Outcome.queries]
  | succ fuel ih =>
      intro s q z log
      rw [autoMLLoop.eq_def]
      by_cases hg : autoMLLoopGuard s = true
      · simp only [hg, if_true]
        cases hq : query q with
        | error e => simp [Outcome.queries]
        | ok s' =>
            show q ≤
              (autoMLLoop query fuel s' (q + 1) (z + 1) (s' :: log)).queries
            have := ih s' (q + 1) (z + 1) (s' :: log)
            omega
      · simp [hg, Outcome.queries]

/-- Whenever the R loop finishes normally, the snapshot it returns has
primary status `Completed`: the only way out of the `while` is its guard
becoming false. -/
lemma tuningLoop_done_guard {ε : Type} (query : Nat → Except ε TuningSnapshot) :
    ∀ (fuel : Nat) (s : TuningSnapshot) (q z : Nat)
      (log : List TuningSnapshot) (s' : TuningSnapshot) (q' z' : Nat)
      (log' : List TuningSnapshot),
      tuningLoop query fuel s q z log = Outcome.done s' q' z' log' →
      s'.HyperParameterTuningJobStatus = "Completed" := by
  intro fuel
  induction fuel with
  | zero =>
      intro s q z log s' q' z' log' h
      rw [tuningLoop.eq_def] at h
      by_cases hg : tuningLoopGuard s = true
      · simp [hg] at h
      · simp [hg] at h
        have : s = s' := h.1
        subst this
        simpa [tuningLoopGuard] using hg
  | succ fuel ih =>
      intro s q z log s' q' z' log' h
      rw [tuningLoop.eq_def] at h
      by_cases hg : tuningLoopGuard s = true
      · simp only [hg, if_true] at h
        cases hq : query q with
        | error e => rw [hq] at h; simp at h
        | ok s'' =>
            rw [hq] at h
            exact ih s'' (q + 1) (z + 1) (s :: log) s' q' z' log' h
      · simp [hg] at h
        have : s = s' := h.1
        subst this
        simpa [tuningLoopGuard] using hg

/-- Run-level: a normal finish of the R watcher always carries a
`Completed` snapshot. -/
lemma tuningRun_done_guard {ε : Type} (query : Nat → Except ε TuningSnapshot)
    (fuel : Nat) (s' : TuningSnapshot) (q' z' : Nat)
    (log' : List TuningSnapshot)
    (h : tuningRun query fuel = Outcome.done s' q' z' log') :
    s'.HyperParameterTuningJobStatus = "Completed" := by
  rw [tuningRun] at h
  cases hq : query 0 with
  | error e => rw [hq] at h; simp at h
  | ok s =>
      rw [hq] at h
      exact tuningLoop_done_guard query fuel s 1 0 [] s' q' z' log' h

/-!
Claim theorems.
-/

/-- Claim C1, counterexample: the claim fails on the R tuning watcher.  With
every describe call answering a snapshot whose primary status is the
terminal value `Failed`, the watcher does not stop after the first call: it
has performed three describe calls after two loop iterations and is still
polling, because its loop guard only tests for `Completed`. -/
theorem claim_C1_counterexample :
    isTerminalStatus "Failed" = true ∧
    tuningRun (ε := Unit) (fun _ => Except.ok ⟨"Failed", ⟨0, 0, 0⟩⟩) 2 =
      Outcome.running ⟨"Failed", ⟨0, 0, 0⟩⟩ 3 2
        [⟨"Failed", ⟨0, 0, 0⟩⟩, ⟨"Failed", ⟨0, 0, 0⟩⟩] := by
  decide

/-- Claim C1, amended: once a query returns a snapshot satisfying the
watcher's own exit condition — for the Python AutoML watcher, primary status
`Completed` or secondary status `Failed`; for the R tuning watcher, status
`Completed` — the watcher performs no further queries: the total number of
describe calls of the run is exactly the position of that snapshot plus
one, for any remaining fuel. -/
theorem claim_C1_no_polling_past_exit {ε : Type}
    (queryA : Nat → Except ε AutoMLSnapshot) (tA : Nat → AutoMLSnapshot)
    (queryT : Nat → Except ε TuningSnapshot) (tT : Nat → TuningSnapshot)
    (nA fA nT fT : Nat) (hfA : nA ≤ fA) (hfT : nT ≤ fT)
    (hqA : ∀ i, i ≤ nA → queryA i = Except.ok (tA i))
    (hgA : ∀ i, i < nA → autoMLLoopGuard (tA i) = true)
    (hsA : autoMLLoopGuard (tA nA) = false)
    (hqT : ∀ i, i ≤ nT → queryT i = Except.ok (tT i))
    (hgT : ∀ i, i < nT → tuningLoopGuard (tT i) = true)
    (hsT : tuningLoopGuard (tT nT) = false) :
    (autoMLRun queryA fA).queries = nA + 1 ∧
    (tuningRun queryT fT).queries = nT + 1 := by
  constructor
  · rw [autoMLRun_done_spec queryA tA nA fA hfA hqA hgA hsA]
    rfl
  · rw [tuningRun_done_spec queryT tT nT fT hfT hqT hgT hsT]
    rfl

/-- Claim C1, witness: both watchers, first snapshot already failing the
guard, exactly one describe call each. -/
theorem claim_C1_witness :
    (autoMLRun (ε := Unit)
      (fun _ => Except.ok ⟨"Completed", "Completed"⟩) 0).queries = 1 ∧
    (tuningRun (ε := Unit)
      (fun _ => Except.ok ⟨"Completed", ⟨0, 0, 0⟩⟩) 0).queries = 1 :=
  claim_C1_no_polling_past_exit
    (fun _ => Except.ok ⟨"Completed", "Completed"⟩)
    (fun _ => ⟨"Completed", "Completed"⟩)
    (fun _ => Except.ok ⟨"Completed", ⟨0, 0, 0⟩⟩)
    (fun _ => ⟨"Completed", ⟨0, 0, 0⟩⟩)
    0 0 0 0 (Nat.le_refl 0) (Nat.le_refl 0)
    (fun _ _ => rfl) (fun i hi => absurd hi (Nat.not_lt_zero i)) (by decide)
    (fun _ _ => rfl) (fun i hi => absurd hi (Nat.not_lt_zero i)) (by decide)

/-- Claim C2, counterexample: the claim fails on the R tuning watcher for
the one-snapshot sequence `[Stopped]`: `Stopped` is terminal, so the claim
asks for exactly one query returning that snapshot, but after one loop
iteration the watcher has performed two describe calls and is still
polling. -/
theorem claim_C2_counterexample :
    isTerminalStatus "Stopped" = true ∧
    tuningRun (ε := Unit) (fun _ => Except.ok ⟨"Stopped", ⟨0, 0, 0⟩⟩) 1 =
      Outcome.running ⟨"Stopped", ⟨0, 0, 0⟩⟩ 2 1 [⟨"Stopped", ⟨0, 0, 0⟩⟩] := by
  decide

/-- Claim C2, amended: for every finite snapshot sequence
`[s0, …, sn]` in which `s0 … s(n-1)` satisfy the watcher's loop guard and
`sn` does not, the watcher performs exactly `n + 1` queries and returns
`sn` — in particular the sequence `[InProgress, InProgress, Completed]`
returns `Completed` after exactly 3 calls (see the witness). -/
theorem claim_C2_exact_query_count {ε : Type}
    (queryA : Nat → Except ε AutoMLSnapshot) (tA : Nat → AutoMLSnapshot)
    (queryT : Nat → Except ε TuningSnapshot) (tT : Nat → TuningSnapshot)
    (nA fA nT fT : Nat) (hfA : nA ≤ fA) (hfT : nT ≤ fT)
    (hqA : ∀ i, i ≤ nA → queryA i = Except.ok (tA i))
    (hgA : ∀ i, i < nA → autoMLLoopGuard (tA i) = true)
    (hsA : autoMLLoopGuard (tA nA) = false)
    (hqT : ∀ i, i ≤ nT → queryT i = Except.ok (tT i))
    (hgT : ∀ i, i < nT → tuningLoopGuard (tT i) = true)
    (hsT : tuningLoopGuard (tT nT) = false) :
    autoMLRun queryA fA =
      Outcome.done (tA nA) (nA + 1) nA ((List.range (nA + 1)).map tA) ∧
    tuningRun queryT fT =
      Outcome.done (tT nT) (nT + 1) nT ((List.range nT).map tT) :=
  ⟨autoMLRun_done_spec queryA tA nA fA hfA hqA hgA hsA,
   tuningRun_done_spec queryT tT nT fT hfT hqT hgT hsT⟩

/-- Claim C2, witness: the scenario `[InProgress, InProgress, Completed]`
on both watchers — `Completed` is returned after exactly 3 describe calls
and 2 sleeps. -/
theorem claim_C2_witness :
    autoMLRun (ε := Unit)
      (fun i => Except.ok (if i < 2 then ⟨"InProgress", "AnalyzingData"⟩
        else ⟨"Completed", "Completed"⟩)) 2 =
      Outcome.done ⟨"Completed", "Completed"⟩ 3 2
        [⟨"InProgress", "AnalyzingData"⟩, ⟨"InProgress", "AnalyzingData"⟩,
          ⟨"Completed", "Completed"⟩] ∧
    tuningRun (ε := Unit)
      (fun i => Except.ok (if i < 2 then ⟨"InProgress", ⟨0, 0, 0⟩⟩
        else ⟨"Completed", ⟨0, 0, 0⟩⟩)) 2 =
      Outcome.done ⟨"Completed", ⟨0, 0, 0⟩⟩ 3 2
        [⟨"InProgress", ⟨0, 0, 0⟩⟩, ⟨"InProgress", ⟨0, 0, 0⟩⟩] :=
  claim_C2_exact_query_count
    (fun i => Except.ok (if i < 2 then ⟨"InProgress", "AnalyzingData"⟩
      else ⟨"Completed", "Completed"⟩))
    (fun i => if i < 2 then ⟨"InProgress", "AnalyzingData"⟩
      else ⟨"Completed", "Completed"⟩)
    (fun i => Except.ok (if i < 2 then ⟨"InProgress", ⟨0, 0, 0⟩⟩
      else ⟨"Completed", ⟨0, 0, 0⟩⟩))
    (fun i => if i < 2 then ⟨"InProgress", ⟨0, 0, 0⟩⟩
      else ⟨"Completed", ⟨0, 0, 0⟩⟩)
    2 2 2 2 (Nat.le_refl 2) (Nat.le_refl 2)
    (fun _ _ => rfl) (by decide) (by decide)
    (fun _ _ => rfl) (by decide) (by decide)

/-- Claim C3, counterexample: the claim fails on the Python AutoML watcher.
A first snapshot with primary status `Failed` but secondary status other
than `Failed` does not end the loop: after two more iterations the watcher
has performed three describe calls and is still polling, because its guard
only tests the primary status against `Completed` and the secondary status
against `Failed`.  (On the R watcher a first `Failed` snapshot likewise
keeps the loop running.) -/
theorem claim_C3_counterexample :
    (AutoMLSnapshot.mk "Failed" "AnalyzingData").AutoMLJobStatus = "Failed" ∧
    autoMLRun (ε := Unit)
      (fun _ => Except.ok ⟨"Failed", "AnalyzingData"⟩) 2 =
      Outcome.running ⟨"Failed", "AnalyzingData"⟩ 3 2
        [⟨"Failed", "AnalyzingData"⟩, ⟨"Failed", "AnalyzingData"⟩,
          ⟨"Failed", "AnalyzingData"⟩] := by
  decide

/-- Claim C3, amended: in the Python AutoML watcher, if the first query
returns a snapshot whose secondary status is `Failed` — which is the
watcher's failure exit, and the shape of a failed AutoML job's snapshot —
the watcher performs exactly one query, sleeps zero times, and returns that
snapshot as a normal `done` outcome (not a propagated error).  A primary
status of `Failed` alone does not stop either watcher. -/
theorem claim_C3_failed_is_normal_exit {ε : Type}
    (query : Nat → Except ε AutoMLSnapshot) (s : AutoMLSnapshot) (fuel : Nat)
    (hq : query 0 = Except.ok s)
    (hsec : s.AutoMLJobSecondaryStatus = "Failed") :
    autoMLRun query fuel = Outcome.done s 1 0 [s] :=
  autoMLRun_done_spec query (fun _ => s) 0 fuel (Nat.zero_le _)
    (fun i _ => by
      have hi0 : i = 0 := by omega
      rw [hi0]
      exact hq)
    (fun i hi => absurd hi (Nat.not_lt_zero i))
    (by simp [autoMLLoopGuard, hsec])

/-- Claim C3, witness: a failed AutoML job (primary and secondary status
`Failed`) is returned after a single describe call as a normal value. -/
theorem claim_C3_witness :
    autoMLRun (ε := Unit) (fun _ => Except.ok ⟨"Failed", "Failed"⟩) 7 =
      Outcome.done ⟨"Failed", "Failed"⟩ 1 0 [⟨"Failed", "Failed"⟩] :=
  claim_C3_failed_is_normal_exit
    (fun _ => Except.ok ⟨"Failed", "Failed"⟩) ⟨"Failed", "Failed"⟩ 7 rfl rfl

/-- Claim C4: an error raised by the describe capability on any call —
first or later — propagates out of either watcher as the run's outcome,
with the failing call being the last one performed: exactly `n + 1` calls
when call `n` raises, hence no retry of the failed query and no further
queries. -/
theorem claim_C4_error_propagation {ε : Type}
    (queryA : Nat → Except ε AutoMLSnapshot) (tA : Nat → AutoMLSnapshot)
    (queryT : Nat → Except ε TuningSnapshot) (tT : Nat → TuningSnapshot)
    (eA eT : ε) (nA fA nT fT : Nat) (hfA : nA ≤ fA) (hfT : nT ≤ fT)
    (hqA : ∀ i, i < nA → queryA i = Except.ok (tA i))
    (hgA : ∀ i, i < nA → autoMLLoopGuard (tA i) = true)
    (heA : queryA nA = Except.error eA)
    (hqT : ∀ i, i < nT → queryT i = Except.ok (tT i))
    (hgT : ∀ i, i < nT → tuningLoopGuard (tT i) = true)
    (heT : queryT nT = Except.error eT) :
    autoMLRun queryA fA =
      Outcome.failed eA (nA + 1) nA ((List.range nA).map tA) ∧
    tuningRun queryT fT =
      Outcome.failed eT (nT + 1) nT ((List.range nT).map tT) :=
  ⟨autoMLRun_error_spec queryA tA eA nA fA hfA hqA hgA heA,
   tuningRun_error_spec queryT tT eT nT fT hfT hqT hgT heT⟩

/-- Claim C4, witness: the second describe call raises on both watchers;
the error is the outcome after exactly two calls. -/
theorem claim_C4_witness :
    autoMLRun
      (fun i => if i = 0
        then Except.ok ⟨"InProgress", "AnalyzingData"⟩
        else Except.error "ServiceUnavailable") 1 =
      Outcome.failed "ServiceUnavailable" 2 1
        [⟨"InProgress", "AnalyzingData"⟩] ∧
    tuningRun
      (fun i => if i = 0
        then Except.ok ⟨"InProgress", ⟨0, 1, 0⟩⟩
        else Except.error "ServiceUnavailable") 1 =
      Outcome.failed "ServiceUnavailable" 2 1 [⟨"InProgress", ⟨0, 1, 0⟩⟩] :=
  claim_C4_error_propagation
    (fun i => if i = 0
      then Except.ok ⟨"InProgress", "AnalyzingData"⟩
      else Except.error "ServiceUnavailable")
    (fun _ => ⟨"InProgress", "AnalyzingData"⟩)
    (fun i => if i = 0
      then Except.ok ⟨"InProgress", ⟨0, 1, 0⟩⟩
      else Except.error "ServiceUnavailable")
    (fun _ => ⟨"InProgress", ⟨0, 1, 0⟩⟩)
    "ServiceUnavailable" "ServiceUnavailable"
    1 1 1 1 (Nat.le_refl 1) (Nat.le_refl 1)
    (fun i hi => by
      have hi0 : i = 0 := by omega
      subst hi0
      rfl)
    (by decide) rfl
    (fun i hi => by
      have hi0 : i = 0 := by omega
      subst hi0
      rfl)
    (by decide) rfl

/-- Claim C5, counterexample: the claim fails on the Python AutoML watcher.
A first snapshot with the terminal primary status `Stopped` (secondary not
`Failed`) does not end the run: a sleep occurs and a second describe call
is made. -/
theorem claim_C5_counterexample :
    isTerminalStatus "Stopped" = true ∧
    autoMLRun (ε := Unit)
      (fun _ => Except.ok ⟨"Stopped", "AnalyzingData"⟩) 1 =
      Outcome.running ⟨"Stopped", "AnalyzingData"⟩ 2 1
        [⟨"Stopped", "AnalyzingData"⟩, ⟨"Stopped", "AnalyzingData"⟩] := by
  decide

/-- Claim C5, amended: if the first query returns a snapshot failing the
watcher's loop guard (rather than: a terminal snapshot), exactly one query
is performed and no sleep occurs, on both watchers. -/
theorem claim_C5_first_exit_single_query {ε : Type}
    (queryA : Nat → Except ε AutoMLSnapshot) (sA : AutoMLSnapshot)
    (queryT : Nat → Except ε TuningSnapshot) (sT : TuningSnapshot)
    (fA fT : Nat)
    (hqA : queryA 0 = Except.ok sA) (hsA : autoMLLoopGuard sA = false)
    (hqT : queryT 0 = Except.ok sT) (hsT : tuningLoopGuard sT = false) :
    autoMLRun queryA fA = Outcome.done sA 1 0 [sA] ∧
    tuningRun queryT fT = Outcome.done sT 1 0 [] :=
  ⟨autoMLRun_done_spec queryA (fun _ => sA) 0 fA (Nat.zero_le _)
      (fun i _ => by
        have hi0 : i = 0 := by omega
        rw [hi0]
        exact hqA)
      (fun i hi => absurd hi (Nat.not_lt_zero i)) hsA,
   tuningRun_done_spec queryT (fun _ => sT) 0 fT (Nat.zero_le _)
      (fun i _ => by
        have hi0 : i = 0 := by omega
        rw [hi0]
        exact hqT)
      (fun i hi => absurd hi (Nat.not_lt_zero i)) hsT⟩

/-- Claim C5, witness: a job already `Completed` at the first query, on
both watchers: one describe call, zero sleeps. -/
theorem claim_C5_witness :
    autoMLRun (ε := Unit)
      (fun _ => Except.ok ⟨"Completed", "MaxCandidatesReached"⟩) 4 =
      Outcome.done ⟨"Completed", "MaxCandidatesReached"⟩ 1 0
        [⟨"Completed", "MaxCandidatesReached"⟩] ∧
    tuningRun (ε := Unit) (fun _ => Except.ok ⟨"Completed", ⟨5, 0, 1⟩⟩) 4 =
      Outcome.done ⟨"Completed", ⟨5, 0, 1⟩⟩ 1 0 [] :=
  claim_C5_first_exit_single_query
    (fun _ => Except.ok ⟨"Completed", "MaxCandidatesReached"⟩)
    ⟨"Completed", "MaxCandidatesReached"⟩
    (fun _ => Except.ok ⟨"Completed", ⟨5, 0, 1⟩⟩)
    ⟨"Completed", ⟨5, 0, 1⟩⟩
    4 4 rfl (by decide) rfl (by decide)

/-- Claim C6, counterexample: the claim fails on the Python AutoML watcher.
With a most recent snapshot whose primary status `InProgress` is
non-terminal but whose secondary status is `Failed`, the watcher does not
suspend and issue a further query: it exits at once with zero sleeps. -/
theorem claim_C6_counterexample :
    isTerminalStatus "InProgress" = false ∧
    autoMLRun (ε := Unit) (fun _ => Except.ok ⟨"InProgress", "Failed"⟩) 5 =
      Outcome.done ⟨"InProgress", "Failed"⟩ 1 0 [⟨"InProgress", "Failed"⟩] := by
  decide

/-- Claim C6, amended: the watcher immediately issues one query on start;
each loop iteration — entered while the most recent snapshot satisfies the
loop guard, not while it is non-terminal — suspends exactly once, for the
fixed 60-second interval, before the next query.  Hence every outcome of
either watcher shows exactly one more describe call than sleeps. -/
theorem claim_C6_one_sleep_between_queries {ε : Type}
    (queryA : Nat → Except ε AutoMLSnapshot)
    (queryT : Nat → Except ε TuningSnapshot) (fA fT : Nat) :
    pollIntervalSeconds = 60 ∧
    (autoMLRun queryA fA).queries = (autoMLRun queryA fA).sleeps + 1 ∧
    (tuningRun queryT fT).queries = (tuningRun queryT fT).sleeps + 1 := by
  refine ⟨rfl, ?_, ?_⟩
  · rw [autoMLRun]
    cases hq : queryA 0 with
    | error e => rfl
    | ok s =>
        show (autoMLLoop queryA fA s 1 0 [s]).queries =
          (autoMLLoop queryA fA s 1 0 [s]).sleeps + 1
        have := autoMLLoop_count queryA fA s 1 0 [s]
        omega
  · rw [tuningRun]
    cases hq : queryT 0 with
    | error e => rfl
    | ok s =>
        show (tuningLoop queryT fT s 1 0 []).queries =
          (tuningLoop queryT fT s 1 0 []).sleeps + 1
        have := tuningLoop_count queryT fT s 1 0 []
        omega

/-- Claim C7: a watch that reaches a guard-failing snapshot returns that
final snapshot, and every intermediate snapshot fetched along the way
appears in the printed log (the Python watcher prints all snapshots, the
R watcher exactly the intermediate ones). -/
theorem claim_C7_returns_final_reports_intermediates {ε : Type}
    (queryA : Nat → Except ε AutoMLSnapshot) (tA : Nat → AutoMLSnapshot)
    (queryT : Nat → Except ε TuningSnapshot) (tT : Nat → TuningSnapshot)
    (nA fA nT fT : Nat) (hfA : nA ≤ fA) (hfT : nT ≤ fT)
    (hqA : ∀ i, i ≤ nA → queryA i = Except.ok (tA i))
    (hgA : ∀ i, i < nA → autoMLLoopGuard (tA i) = true)
    (hsA : autoMLLoopGuard (tA nA) = false)
    (hqT : ∀ i, i ≤ nT → queryT i = Except.ok (tT i))
    (hgT : ∀ i, i < nT → tuningLoopGuard (tT i) = true)
    (hsT : tuningLoopGuard (tT nT) = false) :
    (autoMLRun queryA fA =
        Outcome.done (tA nA) (nA + 1) nA ((List.range (nA + 1)).map tA) ∧
      ∀ i, i < nA → tA i ∈ (List.range (nA + 1)).map tA) ∧
    (tuningRun queryT fT =
        Outcome.done (tT nT) (nT + 1) nT ((List.range nT).map tT) ∧
      ∀ i, i < nT → tT i ∈ (List.range nT).map tT) := by
  refine ⟨⟨autoMLRun_done_spec queryA tA nA fA hfA hqA hgA hsA, ?_⟩,
    ⟨tuningRun_done_spec queryT tT nT fT hfT hqT hgT hsT, ?_⟩⟩
  · intro i hi
    exact List.mem_map_of_mem tA (List.mem_range.mpr (by omega))
  · intro i hi
    exact List.mem_map_of_mem tT (List.mem_range.mpr hi)

/-- Claim C7, witness: one `InProgress` snapshot then `Completed`; the
final snapshot is returned, the intermediate one is in each log. -/
theorem claim_C7_witness :
    (autoMLRun (ε := Unit)
        (fun i => Except.ok (if i < 1 then ⟨"InProgress", "AnalyzingData"⟩
          else ⟨"Completed", "Completed"⟩)) 1 =
      Outcome.done ⟨"Completed", "Completed"⟩ 2 1
        [⟨"InProgress", "AnalyzingData"⟩, ⟨"Completed", "Completed"⟩] ∧
      ∀ i, i < 1 →
        (if i < 1 then (⟨"InProgress", "AnalyzingData"⟩ : AutoMLSnapshot)
          else ⟨"Completed", "Completed"⟩) ∈
          [⟨"InProgress", "AnalyzingData"⟩, ⟨"Completed", "Completed"⟩]) ∧
    (tuningRun (ε := Unit)
        (fun i => Except.ok (if i < 1 then ⟨"InProgress", ⟨1, 2, 0⟩⟩
          else ⟨"Completed", ⟨3, 0, 0⟩⟩)) 1 =
      Outcome.done ⟨"Completed", ⟨3, 0, 0⟩⟩ 2 1 [⟨"InProgress", ⟨1, 2, 0⟩⟩] ∧
      ∀ i, i < 1 →
        (if i < 1 then (⟨"InProgress", ⟨1, 2, 0⟩⟩ : TuningSnapshot)
          else ⟨"Completed", ⟨3, 0, 0⟩⟩) ∈ [⟨"InProgress", ⟨1, 2, 0⟩⟩]) :=
  claim_C7_returns_final_reports_intermediates
    (fun i => Except.ok (if i < 1 then ⟨"InProgress", "AnalyzingData"⟩
      else ⟨"Completed", "Completed"⟩))
    (fun i => if i < 1 then ⟨"InProgress", "AnalyzingData"⟩
      else ⟨"Completed", "Completed"⟩)
    (fun i => Except.ok (if i < 1 then ⟨"InProgress", ⟨1, 2, 0⟩⟩
      else ⟨"Completed", ⟨3, 0, 0⟩⟩))
    (fun i => if i < 1 then ⟨"InProgress", ⟨1, 2, 0⟩⟩
      else ⟨"Completed", ⟨3, 0, 0⟩⟩)
    1 1 1 1 (Nat.le_refl 1) (Nat.le_refl 1)
    (fun _ _ => rfl) (by decide) (by decide)
    (fun _ _ => rfl) (by decide) (by decide)

/-- Claim C8, counterexample: the claim fails on the Python AutoML watcher.
With every answer being the non-terminal primary status `Stopping` but
secondary status `Failed`, the watcher has already returned after the first
query — it exits before any terminal primary status is observed. -/
theorem claim_C8_counterexample :
    isTerminalStatus "Stopping" = false ∧
    autoMLRun (ε := Unit) (fun _ => Except.ok ⟨"Stopping", "Failed"⟩) 3 =
      Outcome.done ⟨"Stopping", "Failed"⟩ 1 0 [⟨"Stopping", "Failed"⟩] := by
  decide

/-- Claim C8, amended: neither watcher enforces a timeout or a maximum
number of polls.  For every `n`, if the first `n + 1` queries all return
snapshots satisfying the loop guard (rather than: non-terminal snapshots),
the watcher has not returned after those queries: with fuel `n` it is still
in the `running` state, whatever `n` is. -/
theorem claim_C8_no_timeout {ε : Type}
    (queryA : Nat → Except ε AutoMLSnapshot) (tA : Nat → AutoMLSnapshot)
    (queryT : Nat → Except ε TuningSnapshot) (tT : Nat → TuningSnapshot)
    (nA nT : Nat)
    (hqA : ∀ i, i ≤ nA → queryA i = Except.ok (tA i))
    (hgA : ∀ i, i ≤ nA → autoMLLoopGuard (tA i) = true)
    (hqT : ∀ i, i ≤ nT → queryT i = Except.ok (tT i))
    (hgT : ∀ i, i ≤ nT → tuningLoopGuard (tT i) = true) :
    autoMLRun queryA nA =
      Outcome.running (tA nA) (nA + 1) nA ((List.range (nA + 1)).map tA) ∧
    tuningRun queryT nT =
      Outcome.running (tT nT) (nT + 1) nT ((List.range nT).map tT) :=
  ⟨autoMLRun_running_spec queryA tA nA hqA hgA,
   tuningRun_running_spec queryT tT nT hqT hgT⟩

/-- Claim C8, witness: two `InProgress` answers leave both watchers still
polling after two describe calls. -/
theorem claim_C8_witness :
    autoMLRun (ε := Unit)
      (fun _ => Except.ok ⟨"InProgress", "AnalyzingData"⟩) 1 =
      Outcome.running ⟨"InProgress", "AnalyzingData"⟩ 2 1
        [⟨"InProgress", "AnalyzingData"⟩, ⟨"InProgress", "AnalyzingData"⟩] ∧
    tuningRun (ε := Unit) (fun _ => Except.ok ⟨"InProgress", ⟨0, 2, 0⟩⟩) 1 =
      Outcome.running ⟨"InProgress", ⟨0, 2, 0⟩⟩ 2 1
        [⟨"InProgress", ⟨0, 2, 0⟩⟩] :=
  claim_C8_no_timeout
    (fun _ => Except.ok ⟨"InProgress", "AnalyzingData"⟩)
    (fun _ => ⟨"InProgress", "AnalyzingData"⟩)
    (fun _ => Except.ok ⟨"InProgress", ⟨0, 2, 0⟩⟩)
    (fun _ => ⟨"InProgress", ⟨0, 2, 0⟩⟩)
    1 1
    (fun _ _ => rfl) (fun _ _ => rfl)
    (fun _ _ => rfl) (fun _ _ => rfl)

/-- Claim C9: the Python AutoML loop's exit condition is exactly
`status = "Completed"` or `secondary_status = "Failed"`.  A snapshot with
secondary status `Failed` stops polling after one query even when its
primary status is non-terminal (the `done` outcome below holds for any
primary status), and a snapshot with primary status `Failed` or `Stopped`
but secondary status other than `Failed` keeps polling: with any spare
fuel, at least a second describe call happens. -/
theorem claim_C9_automl_exit_condition {ε : Type}
    (query : Nat → Except ε AutoMLSnapshot) (s : AutoMLSnapshot) (fuel : Nat)
    (hq : query 0 = Except.ok s) :
    (s.AutoMLJobSecondaryStatus = "Failed" →
      autoMLRun query fuel = Outcome.done s 1 0 [s]) ∧
    ((s.AutoMLJobStatus = "Failed" ∨ s.AutoMLJobStatus = "Stopped") →
      s.AutoMLJobSecondaryStatus ≠ "Failed" →
      2 ≤ (autoMLRun query (fuel + 1)).queries) := by
  constructor
  · intro hsec
    exact autoMLRun_done_spec query (fun _ => s) 0 fuel (Nat.zero_le _)
      (fun i _ => by
        have hi0 : i = 0 := by omega
        subst hi0
        exact hq)
      (fun i hi => absurd hi (Nat.not_lt_zero i))
      (by simp [autoMLLoopGuard, hsec])
  · intro hst hsec
    have hg : autoMLLoopGuard s = true := by
      unfold autoMLLoopGuard
      rcases hst with h | h <;> rw [h] <;> simp [hsec]
    rw [autoMLRun, hq]
    show 2 ≤ (autoMLLoop query (fuel + 1) s 1 0 [s]).queries
    rw [autoMLLoop.eq_def]
    simp only [hg, if_true]
    cases hq1 : query 1 with
    | error e => simp [Outcome.queries]
    | ok s' =>
        show 2 ≤ (autoMLLoop query fuel s' 2 1 (s' :: [s])).queries
        exact autoMLLoop_queries_ge query fuel s' 2 1 (s' :: [s])

/-- Claim C9, witness: a `Stopped` primary status with a non-`Failed`
secondary status is polled past — a second describe call occurs. -/
theorem claim_C9_witness :
    2 ≤ (autoMLRun (ε := Unit)
      (fun _ => Except.ok ⟨"Stopped", "Starting"⟩) 1).queries :=
  (claim_C9_automl_exit_condition
    (fun _ => Except.ok ⟨"Stopped", "Starting"⟩) ⟨"Stopped", "Starting"⟩ 0
    rfl).2 (Or.inr rfl) (by decide)

/-- Claim C10: the R tuning watcher finishes normally only on a snapshot
whose status is `Completed`, and if every query forever answers a
non-`Completed` snapshot — `Failed` and `Stopped` included — the watcher
is, for every fuel bound, still polling, with one describe call per
iteration: it queries forever. -/
theorem claim_C10_tuning_terminates_iff_completed {ε : Type}
    (query : Nat → Except ε TuningSnapshot) (t : Nat → TuningSnapshot)
    (hq : ∀ i, query i = Except.ok (t i))
    (hnc : ∀ i, (t i).HyperParameterTuningJobStatus ≠ "Completed") :
    (∀ fuel, tuningRun query fuel =
      Outcome.running (t fuel) (fuel + 1) fuel ((List.range fuel).map t)) ∧
    (∀ fuel s q z log, tuningRun query fuel = Outcome.done s q z log →
      s.HyperParameterTuningJobStatus = "Completed") := by
  constructor
  · intro fuel
    exact tuningRun_running_spec query t fuel (fun i _ => hq i)
      (fun i _ => by simp [tuningLoopGuard, hnc i])
  · intro fuel s q z log h
    exact tuningRun_done_guard query fuel s q z log h

/-- Claim C10, witness: constant `Failed` answers leave the R watcher
polling after four describe calls and three sleeps. -/
theorem claim_C10_witness :
    tuningRun (ε := Unit) (fun _ => Except.ok ⟨"Failed", ⟨0, 0, 2⟩⟩) 3 =
      Outcome.running ⟨"Failed", ⟨0, 0, 2⟩⟩ 4 3
        [⟨"Failed", ⟨0, 0, 2⟩⟩, ⟨"Failed", ⟨0, 0, 2⟩⟩,
          ⟨"Failed", ⟨0, 0, 2⟩⟩] :=
  (claim_C10_tuning_terminates_iff_completed
    (fun _ => Except.ok ⟨"Failed", ⟨0, 0, 2⟩⟩)
    (fun _ => ⟨"Failed", ⟨0, 0, 2⟩⟩)
    (fun _ => rfl)
    (fun _ =>
      (by decide :
        (TuningSnapshot.mk "Failed" ⟨0, 0, 2⟩).HyperParameterTuningJobStatus ≠
          "Completed"))).1 3
